import Mathlib

/-
Verification of the service lifecycle and middleware pipeline coordinator of
go-servicefoundation.

The embedding follows the Go sources: `service.go` provides the shutdown
coordinator (`serviceImpl.Run`), route registration (`serviceImpl.addRoute`,
`AddRoute`), the built-in server route setups, `NewExitFunc` and
`NewServiceStateReader`.  The middleware wrapper implementation itself is not
part of the provided sources (only its tests are), so the per-kind wrapper
semantics are modelled from the specification (section 4.1) and marked as such.

Effects are made explicit: a handler maps a dispatch state (response status,
headers, logs, metric records) to a new state together with an optional
unrecovered fault (the Go panic).  The shutdown coordinator is a state
transformer over a coordinator state that records the `quitting` flag and an
event trace (flag set, stop-broadcast, exit invocation).
-/

set_option maxRecDepth 8192

namespace SvcF

/-! ## Dispatch state and handlers -/

/-- The observable state of one dispatch: the response (written status code,
headers), the log sink (debug/info lines and error entries), the metric sink
(counter and histogram observations) and an instrumentation counter `calls`
that no middleware touches, used to count base-handler invocations. -/
structure DState where
  status : Option Nat
  headers : List (String × String)
  dbgLogs : List String
  errLogs : List (String × String)
  counts : List (String × String × Nat)
  histos : List (String × String)
  calls : Nat

/-- A handler (Go `model.Handle`): it mutates the dispatch state and either
returns normally (`none`) or escapes with an unrecovered fault carrying a
fault value (a Go panic). -/
def Handle : Type := DState → DState × Option String

/-- CORS configuration (Go `CORSOptions`): allowed origins and methods. -/
structure CORSOptions where
  allowedOrigins : List String
  allowedMethods : List String

/-- The construction-time dependencies of the middleware wrapper that influence
handler behaviour; the logger and metrics sinks are tracked inside `DState`. -/
structure MWrapper where
  corsOptions : CORSOptions

/-! ## Middleware kinds

Modelled from the spec: the middleware kind is a small integer enumeration
with an explicit unrecognized-fallback path (spec section 9, "Enum-as-int with
fallback"); the source file declaring the constants is not among the provided
sources. -/

/-- Modelled from the spec: middleware kinds are small integers. -/
abbrev Middleware := Nat

/-- Modelled from the spec: the CORS middleware kind. -/
def CORS : Middleware := (1 : Nat)

/-- Modelled from the spec: the NoCaching middleware kind. -/
def NoCaching : Middleware := (2 : Nat)

/-- Modelled from the spec: the Counter middleware kind. -/
def Counter : Middleware := (3 : Nat)

/-- Modelled from the spec: the Histogram middleware kind. -/
def Histogram : Middleware := (4 : Nat)

/-- Modelled from the spec: the PanicRecovery middleware kind (named
`PanicTo500` in `service.go`, which references it in `DefaultMiddlewares`). -/
def PanicTo500 : Middleware := (5 : Nat)

/-- Modelled from the spec: the RequestLogging middleware kind. -/
def RequestLogging : Middleware := (6 : Nat)

/-- A middleware kind the dispatch in `Wrap` recognizes. -/
def isKnownMiddleware (m : Middleware) : Bool :=
  m == CORS || m == NoCaching || m == Counter || m == Histogram ||
    m == PanicTo500 || m == RequestLogging

/-- The status code the wrapped response writer reports: 200 until a status
has been written explicitly. -/
def writtenStatusOr200 : Option Nat → Nat
  | none => 200
  | some k => k

/-! ## Per-kind wrappers (modelled from the spec, section 4.1) -/

/-- Modelled from the spec: `PanicRecovery` invokes the inner handler inside a
guarded scope; any unrecovered fault is caught, logged as an error with the
route name and fault value, and the response is forced to HTTP 500 if no
status was already written.  The implementation is not among the provided
sources. -/
def wrapWithPanicTo500 (name : String) (h : Handle) : Handle := fun s =>
  match (h s).2 with
  | none => h s
  | some v =>
    let s1 := { (h s).1 with errLogs := ((h s).1).errLogs ++ [(name, v)] }
    (if s1.status = none then { s1 with status := some 500 } else s1, none)

/-- Modelled from the spec: `RequestLogging` logs handler entry and exit; a
fault in the inner handler propagates (the exit log line is never reached).
The implementation is not among the provided sources. -/
def wrapWithRequestLogging (name : String) (h : Handle) : Handle := fun s =>
  let s0 := { s with dbgLogs := s.dbgLogs ++ [name ++ " enter"] }
  match (h s0).2 with
  | none => ({ (h s0).1 with dbgLogs := ((h s0).1).dbgLogs ++ [name ++ " exit"] }, none)
  | some v => ((h s0).1, some v)

/-- Modelled from the spec: `NoCaching` unconditionally sets no-cache response
headers before dispatch.  The implementation is not among the provided
sources. -/
def wrapWithNoCaching (h : Handle) : Handle := fun s =>
  h { s with headers := s.headers ++
        [("Cache-Control", "no-cache, no-store"), ("Pragma", "no-cache")] }

/-- Modelled from the spec: `CORS` sets the allow-origin / allow-methods
headers from the configured allow-lists before dispatch and does not
short-circuit.  The implementation is not among the provided sources. -/
def wrapWithCORS (opt : CORSOptions) (h : Handle) : Handle := fun s =>
  h { s with headers := s.headers ++
        [("Access-Control-Allow-Origin", String.intercalate "," opt.allowedOrigins),
         ("Access-Control-Allow-Methods", String.intercalate "," opt.allowedMethods)] }

/-- Modelled from the spec: `Counter` increments, after dispatch regardless of
outcome, a counter labeled by subsystem, route name and final status code; a
fault propagates after the observation is recorded.  The implementation is not
among the provided sources. -/
def wrapWithCounter (subsystem name : String) (h : Handle) : Handle := fun s =>
  ({ (h s).1 with counts := ((h s).1).counts ++
      [(subsystem, name, writtenStatusOr200 ((h s).1).status)] }, (h s).2)

/-- Modelled from the spec: `Histogram` records one elapsed-time observation
per dispatch, labeled by subsystem and route name, regardless of outcome; a
fault propagates after the observation is recorded.  The implementation is not
among the provided sources. -/
def wrapWithHistogram (subsystem name : String) (h : Handle) : Handle := fun s =>
  ({ (h s).1 with histos := ((h s).1).histos ++ [(subsystem, name)] }, (h s).2)

/-- Modelled from the spec: `MiddlewareWrapper.Wrap` dispatches on the
middleware kind; an unrecognized kind logs one warning identifying the kind
and the route and returns the handler unmodified.  Warnings are emitted at
composition time, so `Wrap` returns the wrapped handler together with the
warnings logged while wrapping.  The implementation is not among the provided
sources. -/
def Wrap (w : MWrapper) (subsystem name : String) (m : Middleware) (h : Handle) :
    Handle × List (Middleware × String) :=
  if m = CORS then (wrapWithCORS w.corsOptions h, [])
  else if m = NoCaching then (wrapWithNoCaching h, [])
  else if m = Counter then (wrapWithCounter subsystem name h, [])
  else if m = Histogram then (wrapWithHistogram subsystem name h, [])
  else if m = PanicTo500 then (wrapWithPanicTo500 name h, [])
  else if m = RequestLogging then (wrapWithRequestLogging name h, [])
  else (h, [(m, name)])

/-- Modelled from the spec: chain composition (`Compose`, spec section 4.1;
the list-taking `Wrap` of the handler factory in the source, whose implementation
is not among the provided sources).  Chain order `[A, B]` yields
`A(B(base))`: each kind wraps the previously composed handler, and the
warnings of every wrapping step are collected. -/
def WrapChain (w : MWrapper) (subsystem name : String) :
    List Middleware → Handle → Handle × List (Middleware × String)
  | [], h => (h, [])
  | m :: rest, h =>
    let inner := WrapChain w subsystem name rest h
    let outer := Wrap w subsystem name m inner.1
    (outer.1, outer.2 ++ inner.2)

/-! ## Shutdown coordinator (`serviceImpl.Run`, service.go lines 242-269) -/

/-- A shutdown trigger: one of the three cases of the `select` of the
arbitration goroutine in `serviceImpl.Run` — an unexpected listener termination
(`receiveChan`), programmatic cancellation (`ctx.Done()`), or an OS
termination signal (`sigs`). -/
inductive Trigger
  | listenerDied
  | ctxDone
  | osSignal
deriving DecidableEq

/-- The observable actions of the coordinator: setting the `quitting` flag,
broadcasting the stop request on `sendChan`, and invoking the exit sequence
(`s.exitFunc(code)`). -/
inductive CoordEvent
  | setQuitting
  | broadcast
  | exitInvoked (code : Int)
deriving DecidableEq

/-- Coordinator state: the shared `quitting` flag, the trace of coordinator
events in order of occurrence, and the debug log lines. -/
structure CoordState where
  quitting : Bool
  events : List CoordEvent
  debugLogs : List String

/-- The `select` body of the arbitration goroutine in `serviceImpl.Run`: the
listener-died and OS-signal cases only log; the cancellation case logs, sets
`quitting` and sends the stop request on `sendChan`. -/
def selectBranch : Trigger → CoordState → CoordState
  | Trigger.listenerDied, s =>
      { s with debugLogs := s.debugLogs ++ ["UnexpectedShutdownReceived"] }
  | Trigger.ctxDone, s =>
      { s with debugLogs := s.debugLogs ++ ["ServiceCancel"],
               quitting := true,
               events := s.events ++ [CoordEvent.setQuitting, CoordEvent.broadcast] }
  | Trigger.osSignal, s =>
      { s with debugLogs := s.debugLogs ++ ["GracefulShutdown"] }

/-- The code after the `select` in `serviceImpl.Run`: if `quitting` is still
false, set it and broadcast the stop request; then invoke the exit sequence
with code 0. -/
def afterSelect (s : CoordState) : CoordState :=
  let s1 := if s.quitting then s
            else { s with quitting := true,
                          events := s.events ++ [CoordEvent.setQuitting, CoordEvent.broadcast] }
  { s1 with events := s1.events ++ [CoordEvent.exitInvoked 0] }

/-- One full run of the arbitration goroutine of `serviceImpl.Run`, handling
the trigger its `select` consumed. -/
def runCoordinator (t : Trigger) (s : CoordState) : CoordState :=
  afterSelect (selectBranch t s)

/-- The arbitration goroutine performs a single `select` and then terminates:
only the first available trigger is ever consumed; triggers fired after the
first have no receiver and leave the coordinator state unchanged. -/
def runTriggers : List Trigger → CoordState → CoordState
  | [], s => s
  | t :: _, s => runCoordinator t s

/-- Count of trace events satisfying a predicate. -/
def countEv (l : List CoordEvent) (p : CoordEvent → Bool) : Nat :=
  (l.filter p).length

/-- Recognizes an exit-sequence invocation event, with any code. -/
def isExitInvoked : CoordEvent → Bool
  | CoordEvent.exitInvoked _ => true
  | _ => false

/-- The exit codes of the exit-sequence invocations in a trace, in order. -/
def exitCodesOf (l : List CoordEvent) : List Int :=
  l.filterMap fun e =>
    match e with
    | CoordEvent.exitInvoked c => some c
    | _ => none

/-! ## Exit sequence (`NewExitFunc`, service.go lines 181-202) -/

/-- The observable steps of the exit sequence spawned by the function
`NewExitFunc` returns: invoking the optional shutdown callback, the fixed
delay before a non-zero exit, and the final process termination. -/
inductive ExitEvent
  | shutdownCallback
  | delayBeforeExit
  | processExited (code : Int)
deriving DecidableEq

/-- The trace of the exit sequence of `NewExitFunc` when invoked with `code`:
the shutdown callback is called first when one was supplied, a 500ms delay is
inserted when (and only when) the code is non-zero, then the process exits
with the code. -/
def NewExitFunc (hasShutdownFunc : Bool) (code : Int) : List ExitEvent :=
  let l1 := if hasShutdownFunc then [ExitEvent.shutdownCallback] else []
  let l2 := if code ≠ 0 then l1 ++ [ExitEvent.delayBeforeExit] else l1
  l2 ++ [ExitEvent.processExited code]

/-! ## Routers and route registration (service.go lines 280-371) -/

/-- The dispatch table of a router: the sequence of `Handle(method, path, handler)`
insertions, in registration order. -/
structure Router where
  table : List ((String × String) × Handle)

/-- Go `router.Router.Handle(method, path, handler)`: insert one dispatch-table
entry. -/
def routerHandle (r : Router) (method path : String) (h : Handle) : Router :=
  { table := r.table ++ [((method, path), h)] }

/-- Dispatch-table lookup; a later registration of the same (method, path)
pair overwrites an earlier one. -/
def lookupRoute (r : Router) (method path : String) : Option Handle :=
  r.table.foldl (fun acc e => if e.1 = (method, path) then some e.2 else acc) none

/-- Go `serviceImpl.addRoute`: for each path, build one composed handler via the
middleware pipeline and insert it into the dispatch table for every method. -/
def addRoute (w : MWrapper) (r : Router) (subsystem name : String)
    (routes methods : List String) (mws : List Middleware) (h : Handle) : Router :=
  routes.foldl
    (fun acc path =>
      let wrappedHandler := (WrapChain w subsystem name mws h).1
      methods.foldl (fun acc2 method => routerHandle acc2 method path wrappedHandler) acc)
    r

/-- Modelled from the spec: the built-in service-management routes are
registered for the GET method (`MethodsForGet` is referenced by `service.go`
but declared in a source file not among the provided ones). -/
def MethodsForGet : List String := ["GET"]

/-- The subsystem label used for the public server (`publicSubsystem` in
service.go). -/
def publicSubsystem : String := "public"

/-- Go `DefaultMiddlewares` (service.go line 105): the default middleware
wrappers for the predefined service endpoints. -/
def DefaultMiddlewares : List Middleware := [PanicTo500, RequestLogging, NoCaching]

/-- One registration performed by `serviceImpl.addRoute`, as recorded by the
built-in server setups: which subsystem, route name, paths, methods and
middleware chain were used. -/
structure RouteReg where
  subsystem : String
  name : String
  paths : List String
  methods : List String
  middlewares : List Middleware
deriving DecidableEq

/-- The state a built-in server setup threads through its `addRoute` calls:
the router being populated and the record of registrations made. -/
structure SvcServerState where
  router : Router
  regs : List RouteReg

/-- Go `serviceImpl.addRoute` as used by the server setups, additionally
recording the arguments of the registration. -/
def addRouteS (w : MWrapper) (st : SvcServerState) (subsystem name : String)
    (paths methods : List String) (mws : List Middleware) (h : Handle) : SvcServerState :=
  { router := addRoute w st.router subsystem name paths methods mws h,
    regs := st.regs ++ [⟨subsystem, name, paths, methods, mws⟩] }

/-- The handlers the built-in routes are registered with
(`serviceImpl.handlers`); their behaviour is opaque to the registration
logic. -/
structure Handlers where
  rootHandler : Handle
  livenessHandler : Handle
  readinessHandler : Handle
  healthHandler : Handle
  metricsHandler : Handle
  quitHandler : Handle
  versionHandler : Handle

/-- Go `serviceImpl.runReadinessServer` (service.go lines 329-341): registers the
root, liveness and readiness routes with the default middlewares. -/
def runReadinessServer (w : MWrapper) (hs : Handlers) (st : SvcServerState) : SvcServerState :=
  let st1 := addRouteS w st "readiness" "root" ["/"] MethodsForGet DefaultMiddlewares hs.rootHandler
  let st2 := addRouteS w st1 "readiness" "liveness" ["/service/liveness"] MethodsForGet
    DefaultMiddlewares hs.livenessHandler
  addRouteS w st2 "readiness" "readiness" ["/service/readiness"] MethodsForGet
    DefaultMiddlewares hs.readinessHandler

/-- Go `serviceImpl.runInternalServer` (service.go lines 344-357): registers the
root, health_check, metrics and quit routes with the default middlewares. -/
def runInternalServer (w : MWrapper) (hs : Handlers) (st : SvcServerState) : SvcServerState :=
  let st1 := addRouteS w st "internal" "root" ["/"] MethodsForGet DefaultMiddlewares hs.rootHandler
  let st2 := addRouteS w st1 "internal" "health_check" ["/health_check", "/healthz"] MethodsForGet
    DefaultMiddlewares hs.healthHandler
  let st3 := addRouteS w st2 "internal" "metrics" ["/metrics"] MethodsForGet
    DefaultMiddlewares hs.metricsHandler
  addRouteS w st3 "internal" "quit" ["/quit"] MethodsForGet DefaultMiddlewares hs.quitHandler

/-- Go `serviceImpl.runPublicServer` (service.go lines 360-371): registers the
root, version, liveness and readiness routes with the default middlewares. -/
def runPublicServer (w : MWrapper) (hs : Handlers) (st : SvcServerState) : SvcServerState :=
  let st1 := addRouteS w st publicSubsystem "root" ["/"] MethodsForGet DefaultMiddlewares
    hs.rootHandler
  let st2 := addRouteS w st1 publicSubsystem "version" ["/service/version"] MethodsForGet
    DefaultMiddlewares hs.versionHandler
  let st3 := addRouteS w st2 publicSubsystem "liveness" ["/service/liveness"] MethodsForGet
    DefaultMiddlewares hs.livenessHandler
  addRouteS w st3 publicSubsystem "readiness" ["/service/readiness"] MethodsForGet
    DefaultMiddlewares hs.readinessHandler

/-! ## Service state reader and the public registration surface -/

/-- The `ServiceStateReader` interface: each method takes no argument and
reports one aspect of service state. -/
structure ServiceStateReader where
  IsLive : Unit → Bool
  IsReady : Unit → Bool
  IsHealthy : Unit → Bool

/-- Go `NewServiceStateReader` (service.go lines 204-222): the basic
implementation, which always returns true from its state methods. -/
def NewServiceStateReader : ServiceStateReader :=
  { IsLive := fun _ => true, IsReady := fun _ => true, IsHealthy := fun _ => true }

/-- The three routers held by `serviceImpl` (the remaining fields of the Go
struct do not participate in route registration). -/
structure ServiceImpl where
  publicRouter : Router
  readinessRouter : Router
  internalRouter : Router

/-- Go `serviceImpl.AddRoute` (service.go lines 280-282): registers the route on
the public router under the public subsystem. -/
def AddRoute (w : MWrapper) (s : ServiceImpl) (name : String)
    (routes methods : List String) (mws : List Middleware) (h : Handle) : ServiceImpl :=
  { s with publicRouter :=
      addRoute w s.publicRouter publicSubsystem name routes methods mws h }

/-! ## Concrete instances used by the witnesses -/

/-- A concrete wrapper configuration. -/
def w0 : MWrapper := { corsOptions := { allowedOrigins := ["*"], allowedMethods := ["GET"] } }

/-- A fresh dispatch state: nothing written, nothing logged, nothing
recorded. -/
def initDState : DState :=
  { status := none, headers := [], dbgLogs := [], errLogs := [],
    counts := [], histos := [], calls := 0 }

/-- A handler that always faults without touching the state. -/
def hBoom : Handle := fun t => (t, some "boom")

/-- A handler that returns normally, recording its invocation. -/
def hCount : Handle := fun t => ({ t with calls := t.calls + 1 }, none)

/-- A fresh coordinator state: not quitting, empty traces. -/
def initCoordState : CoordState := { quitting := false, events := [], debugLogs := [] }

/-- An empty dispatch table. -/
def emptyRouter : Router := { table := [] }

/-- A fresh server-setup state. -/
def emptySvc : SvcServerState := { router := emptyRouter, regs := [] }

/-- One concrete set of route handlers, used to evaluate registration
metadata. -/
def hs0 : Handlers :=
  { rootHandler := hCount, livenessHandler := hCount, readinessHandler := hCount,
    healthHandler := hCount, metricsHandler := hCount, quitHandler := hCount,
    versionHandler := hCount }

/-! ## Shutdown coordinator lemmas -/

/-- On a not-yet-quitting state, one run of the arbitration goroutine appends
exactly the events set-quitting, broadcast, exit-invoked-0, in that order, and
leaves the flag set. -/
theorem runCoordinator_spec (t : Trigger) (s : CoordState) (hq : s.quitting = false) :
    (runCoordinator t s).events
      = s.events ++ [CoordEvent.setQuitting, CoordEvent.broadcast, CoordEvent.exitInvoked 0]
    ∧ (runCoordinator t s).quitting = true := by
  cases t <;> simp [runCoordinator, selectBranch, afterSelect, hq]

/-- Event counts distribute over trace concatenation. -/
theorem countEv_append (l1 l2 : List CoordEvent) (p : CoordEvent → Bool) :
    countEv (l1 ++ l2) p = countEv l1 p + countEv l2 p := by
  simp [countEv, List.filter_append]

/-- C1: across any non-empty sequence of shutdown triggers fired against a
coordinator that is not yet quitting, the `quitting` flag ends true, exactly
one additional set of the flag, one additional stop-signal broadcast and one
additional exit-sequence invocation occur, and every trigger after the first
leaves the coordinator state exactly as the first trigger left it. -/
theorem c1 (t : Trigger) (ts : List Trigger) (s : CoordState) (hq : s.quitting = false) :
    (runTriggers (t :: ts) s).quitting = true
    ∧ countEv (runTriggers (t :: ts) s).events (fun e => decide (e = CoordEvent.setQuitting))
        = countEv s.events (fun e => decide (e = CoordEvent.setQuitting)) + 1
    ∧ countEv (runTriggers (t :: ts) s).events (fun e => decide (e = CoordEvent.broadcast))
        = countEv s.events (fun e => decide (e = CoordEvent.broadcast)) + 1
    ∧ countEv (runTriggers (t :: ts) s).events isExitInvoked
        = countEv s.events isExitInvoked + 1
    ∧ runTriggers (t :: ts) s = runCoordinator t s := by
  obtain ⟨hev, hqt⟩ := runCoordinator_spec t s hq
  have hr : runTriggers (t :: ts) s = runCoordinator t s := rfl
  refine ⟨by rw [hr]; exact hqt, ?_, ?_, ?_, hr⟩ <;>
    rw [hr, hev, countEv_append] <;> simp [countEv, isExitInvoked]

/-- C1 witness: concurrent cancellation, OS signal and listener death, with
cancellation selected first, set the flag and fire the exit sequence once. -/
theorem c1_witness :
    (runTriggers [Trigger.ctxDone, Trigger.osSignal, Trigger.listenerDied] initCoordState).quitting
      = true
    ∧ countEv (runTriggers [Trigger.ctxDone, Trigger.osSignal, Trigger.listenerDied]
        initCoordState).events isExitInvoked = 1 := by
  have h := c1 Trigger.ctxDone [Trigger.osSignal, Trigger.listenerDied] initCoordState rfl
  exact ⟨h.1, by simpa [initCoordState, countEv] using h.2.2.2.1⟩

/-- C5: on the first trigger the coordinator appends, in order, the
flag-setting, the stop broadcast and the exit invocation with code 0; the exit
sequence runs the supplied shutdown callback first, terminates the process
last, and inserts the delay exactly when the exit code is non-zero. -/
theorem c5 (t : Trigger) (s : CoordState) (hq : s.quitting = false) (hasCb : Bool) (code : Int) :
    (runCoordinator t s).events
      = s.events ++ [CoordEvent.setQuitting, CoordEvent.broadcast, CoordEvent.exitInvoked 0]
    ∧ (hasCb = true → (NewExitFunc hasCb code).head? = some ExitEvent.shutdownCallback)
    ∧ (NewExitFunc hasCb code).getLast? = some (ExitEvent.processExited code)
    ∧ (ExitEvent.delayBeforeExit ∈ NewExitFunc hasCb code ↔ code ≠ 0) := by
  refine ⟨(runCoordinator_spec t s hq).1, ?_, ?_, ?_⟩ <;>
    cases hasCb <;> by_cases hc : code = 0 <;> simp [NewExitFunc, hc]

/-- C5 witness: an OS signal on a fresh coordinator produces the ordered
event trace, and the exit sequence for a supplied callback and code 1 starts
with the callback, ends with the exit, and contains the delay. -/
theorem c5_witness :
    (runCoordinator Trigger.osSignal initCoordState).events
      = [CoordEvent.setQuitting, CoordEvent.broadcast, CoordEvent.exitInvoked 0]
    ∧ (NewExitFunc true 1).head? = some ExitEvent.shutdownCallback
    ∧ (NewExitFunc true 1).getLast? = some (ExitEvent.processExited 1)
    ∧ ExitEvent.delayBeforeExit ∈ NewExitFunc true 1 := by
  have h := c5 Trigger.osSignal initCoordState rfl true 1
  exact ⟨by simpa [initCoordState] using h.1, h.2.1 rfl, h.2.2.1, (h.2.2.2).mpr (by decide)⟩

/-- C6 counterexample: on an unexpected listener termination — the abnormal
trigger — the exit sequence is invoked with code 0, so it is false that every
exit code produced by that trigger is non-zero. -/
theorem c6_counterexample :
    ¬ (∀ c : Int,
        c ∈ exitCodesOf (runCoordinator Trigger.listenerDied initCoordState).events → c ≠ 0) := by
  intro hcl
  exact hcl 0 (by decide) rfl

/-- C6 amended: `Run` always invokes the exit sequence with code 0 — for the
graceful triggers and for an unexpected listener termination alike; no
trigger is mapped to a non-zero exit code. -/
theorem c6_amended (t : Trigger) (s : CoordState) :
    exitCodesOf (runCoordinator t s).events = exitCodesOf s.events ++ [0] := by
  cases t <;> by_cases hq : s.quitting <;>
    simp [runCoordinator, selectBranch, afterSelect, exitCodesOf, hq]

/-- C9: the default service state reader reports the service live, ready and
healthy on every call. -/
theorem c9 :
    (∀ u : Unit, NewServiceStateReader.IsLive u = true)
    ∧ (∀ u : Unit, NewServiceStateReader.IsReady u = true)
    ∧ (∀ u : Unit, NewServiceStateReader.IsHealthy u = true) :=
  ⟨fun _ => rfl, fun _ => rfl, fun _ => rfl⟩

/-! ## Route registration lemmas -/

/-- Looking up after inserting one entry: the new entry wins on its own key
and every other key is unaffected. -/
theorem lookupRoute_routerHandle (r : Router) (mo path : String) (wh : Handle) (m p : String) :
    lookupRoute (routerHandle r mo path wh) m p
      = if mo = m ∧ path = p then some wh else lookupRoute r m p := by
  by_cases hk : mo = m ∧ path = p
  · simp [lookupRoute, routerHandle, List.foldl_append, hk.1, hk.2]
  · have hne : ¬ ((mo, path) = (m, p)) := by
      intro hcontra
      exact hk ⟨congrArg Prod.fst hcontra, congrArg Prod.snd hcontra⟩
    simp [lookupRoute, routerHandle, List.foldl_append, hne, hk]

/-- Looking up after registering one composed handler for one path under
every method of a list. -/
theorem lookupRoute_methodsFold (wh : Handle) (path : String) (M : List String)
    (r : Router) (m p : String) :
    lookupRoute (M.foldl (fun acc method => routerHandle acc method path wh) r) m p
      = if p = path ∧ m ∈ M then some wh else lookupRoute r m p := by
  induction M generalizing r with
  | nil => simp
  | cons mo rest ih =>
    rw [List.foldl_cons, ih, lookupRoute_routerHandle]
    by_cases h1 : p = path ∧ m ∈ rest
    · rw [if_pos h1, if_pos ⟨h1.1, List.mem_cons_of_mem _ h1.2⟩]
    · rw [if_neg h1]
      by_cases h2 : mo = m ∧ path = p
      · rw [if_pos h2, if_pos ⟨h2.2.symm, List.mem_cons.mpr (Or.inl h2.1.symm)⟩]
      · have hcond : ¬ (p = path ∧ m ∈ mo :: rest) := by
          rintro ⟨hpp, hmem⟩
          rcases List.mem_cons.mp hmem with hmo | hrest
          · exact h2 ⟨hmo.symm, hpp.symm⟩
          · exact h1 ⟨hpp, hrest⟩
        rw [if_neg h2, if_neg hcond]

/-- Characterization of `serviceImpl.addRoute`: every (path, method) pair of
the registration maps to the composed handler afterwards, and every other
pair is unaffected. -/
theorem lookupRoute_addRoute (w : MWrapper) (r : Router) (sub nm : String)
    (P M : List String) (c : List Middleware) (h : Handle) (m p : String) :
    lookupRoute (addRoute w r sub nm P M c h) m p
      = if p ∈ P ∧ m ∈ M then some ((WrapChain w sub nm c h).1)
        else lookupRoute r m p := by
  induction P generalizing r with
  | nil => simp [addRoute]
  | cons q rest ih =>
    have hstep : addRoute w r sub nm (q :: rest) M c h
        = addRoute w
            (M.foldl (fun acc2 method => routerHandle acc2 method q (WrapChain w sub nm c h).1) r)
            sub nm rest M c h := rfl
    rw [hstep, ih, lookupRoute_methodsFold]
    by_cases h1 : p ∈ rest ∧ m ∈ M
    · rw [if_pos h1, if_pos ⟨List.mem_cons_of_mem _ h1.1, h1.2⟩]
    · rw [if_neg h1]
      by_cases h2 : p = q ∧ m ∈ M
      · rw [if_pos h2, if_pos ⟨List.mem_cons.mpr (Or.inl h2.1), h2.2⟩]
      · have hcond : ¬ (p ∈ q :: rest ∧ m ∈ M) := by
          rintro ⟨hmem, hm⟩
          rcases List.mem_cons.mp hmem with hq | hrest
          · exact h2 ⟨hq, hm⟩
          · exact h1 ⟨hrest, hm⟩
        rw [if_neg h2, if_neg hcond]

/-- C7: route registration maps every (path × method) combination of the
registration to the one handler composed from the middleware chain by the
pipeline. -/
theorem c7 (w : MWrapper) (r : Router) (sub nm : String) (P M : List String)
    (c : List Middleware) (h : Handle) (p : String) (hp : p ∈ P) (m : String) (hm : m ∈ M) :
    lookupRoute (addRoute w r sub nm P M c h) m p = some ((WrapChain w sub nm c h).1) := by
  rw [lookupRoute_addRoute]
  simp [hp, hm]

/-- C7 witness: registering `ping` under path `/ping` and method GET makes the
dispatch table map that pair to the composed handler. -/
theorem c7_witness :
    lookupRoute (addRoute w0 emptyRouter "public" "ping" ["/ping"] ["GET"] [Counter] hCount)
      "GET" "/ping" = some ((WrapChain w0 "public" "ping" [Counter] hCount).1) :=
  c7 w0 emptyRouter "public" "ping" ["/ping"] ["GET"] [Counter] hCount
    "/ping" (by simp) "GET" (by simp)

/-- C8: the readiness server registers exactly root, liveness, readiness; the
internal server exactly root, health_check, metrics, quit; the public server
exactly root, version, liveness, readiness; every one of these built-in
registrations uses the default middleware chain, which is
[PanicTo500, RequestLogging, NoCaching]. -/
theorem c8 (w : MWrapper) (hs : Handlers) :
    (runReadinessServer w hs emptySvc).regs.map RouteReg.name = ["root", "liveness", "readiness"]
    ∧ (runInternalServer w hs emptySvc).regs.map RouteReg.name
        = ["root", "health_check", "metrics", "quit"]
    ∧ (runPublicServer w hs emptySvc).regs.map RouteReg.name
        = ["root", "version", "liveness", "readiness"]
    ∧ (∀ reg ∈ (runReadinessServer w hs emptySvc).regs ++ (runInternalServer w hs emptySvc).regs
          ++ (runPublicServer w hs emptySvc).regs, reg.middlewares = DefaultMiddlewares)
    ∧ DefaultMiddlewares = [PanicTo500, RequestLogging, NoCaching] := by
  refine ⟨rfl, rfl, rfl, ?_, rfl⟩
  intro reg hreg
  have e : (runReadinessServer w hs emptySvc).regs ++ (runInternalServer w hs emptySvc).regs
        ++ (runPublicServer w hs emptySvc).regs
      = (runReadinessServer w0 hs0 emptySvc).regs ++ (runInternalServer w0 hs0 emptySvc).regs
        ++ (runPublicServer w0 hs0 emptySvc).regs := rfl
  rw [e] at hreg
  exact (by decide :
    ∀ reg ∈ (runReadinessServer w0 hs0 emptySvc).regs ++ (runInternalServer w0 hs0 emptySvc).regs
        ++ (runPublicServer w0 hs0 emptySvc).regs, reg.middlewares = DefaultMiddlewares) reg hreg

/-- C10: `AddRoute` touches only the public router, registering there under
the public subsystem, while the readiness and internal dispatch tables answer
every lookup exactly as before. -/
theorem c10 (w : MWrapper) (s : ServiceImpl) (nm : String) (P M : List String)
    (c : List Middleware) (h : Handle) :
    (∀ m p, lookupRoute (AddRoute w s nm P M c h).readinessRouter m p
        = lookupRoute s.readinessRouter m p)
    ∧ (∀ m p, lookupRoute (AddRoute w s nm P M c h).internalRouter m p
        = lookupRoute s.internalRouter m p)
    ∧ (∀ p, p ∈ P → ∀ m, m ∈ M →
        lookupRoute (AddRoute w s nm P M c h).publicRouter m p
          = some ((WrapChain w publicSubsystem nm c h).1)) := by
  refine ⟨fun m p => rfl, fun m p => rfl, fun p hp m hm => ?_⟩
  show lookupRoute (addRoute w s.publicRouter publicSubsystem nm P M c h) m p
      = some ((WrapChain w publicSubsystem nm c h).1)
  rw [lookupRoute_addRoute]
  simp [hp, hm]

/-- C10 witness: registering `ping` through `AddRoute` lands on the public
router under the public subsystem. -/
theorem c10_witness :
    lookupRoute (AddRoute w0 ⟨emptyRouter, emptyRouter, emptyRouter⟩ "ping" ["/ping"] ["GET"]
        [] hCount).publicRouter "GET" "/ping"
      = some ((WrapChain w0 publicSubsystem "ping" [] hCount).1) :=
  (c10 w0 ⟨emptyRouter, emptyRouter, emptyRouter⟩ "ping" ["/ping"] ["GET"] [] hCount).2.2
    "/ping" (by simp) "GET" (by simp)

/-! ## Middleware pipeline lemmas -/

/-- Wrapping an unrecognized kind returns the handler unmodified and logs one
warning naming the kind and the route. -/
theorem Wrap_unknown (w : MWrapper) (sub nm : String) (m : Middleware) (h : Handle)
    (hm : isKnownMiddleware m = false) : Wrap w sub nm m h = (h, [(m, nm)]) := by
  simp only [isKnownMiddleware, Bool.or_eq_false_iff, beq_eq_false_iff_ne, ne_eq] at hm
  obtain ⟨⟨⟨⟨⟨n1, n2⟩, n3⟩, n4⟩, n5⟩, n6⟩ := hm
  simp [Wrap, n1, n2, n3, n4, n5, n6]

/-- Wrapping a recognized kind logs no warning. -/
theorem Wrap_known_warnings (w : MWrapper) (sub nm : String) (m : Middleware) (h : Handle)
    (hm : isKnownMiddleware m = true) : (Wrap w sub nm m h).2 = [] := by
  simp only [isKnownMiddleware, Bool.or_eq_true, beq_iff_eq] at hm
  rcases hm with ((((rfl | rfl) | rfl) | rfl) | rfl) | rfl <;>
    simp [Wrap, CORS, NoCaching, Counter, Histogram, PanicTo500, RequestLogging]

/-- C3: for every chain, the composed handler equals the handler composed
from the chain with all unrecognized kinds removed (for a chain of a single
unknown kind: the base handler itself), and composition logs exactly one
warning per unrecognized occurrence, each naming the kind and the route;
composition is total, so no chain can abort route registration. -/
theorem c3 (w : MWrapper) (sub nm : String) (c : List Middleware) (h : Handle) :
    (WrapChain w sub nm c h).1 = (WrapChain w sub nm (c.filter isKnownMiddleware) h).1
    ∧ (WrapChain w sub nm c h).2
        = (c.filter (fun m => !(isKnownMiddleware m))).map (fun m => (m, nm)) := by
  induction c with
  | nil => exact ⟨rfl, rfl⟩
  | cons m rest ih =>
    by_cases hk : isKnownMiddleware m = true
    · constructor
      · show (Wrap w sub nm m (WrapChain w sub nm rest h).1).1 = _
        rw [List.filter_cons_of_pos hk]
        show _ = (Wrap w sub nm m (WrapChain w sub nm (rest.filter isKnownMiddleware) h).1).1
        rw [ih.1]
      · show (Wrap w sub nm m (WrapChain w sub nm rest h).1).2
            ++ (WrapChain w sub nm rest h).2 = _
        rw [Wrap_known_warnings w sub nm m _ hk, List.nil_append, ih.2,
          List.filter_cons_of_neg (by simp [hk])]
    · have hk' : isKnownMiddleware m = false := by
        simpa using hk
      have hw := Wrap_unknown w sub nm m (WrapChain w sub nm rest h).1 hk'
      constructor
      · show (Wrap w sub nm m (WrapChain w sub nm rest h).1).1 = _
        rw [hw, List.filter_cons_of_neg (by simp [hk']), ih.1]
      · show (Wrap w sub nm m (WrapChain w sub nm rest h).1).2
            ++ (WrapChain w sub nm rest h).2 = _
        rw [hw, ih.2, List.filter_cons_of_pos (by simp [hk'])]
        rfl

/-- A handler that invokes the base handler exactly once per dispatch: the
instrumentation counter `calls`, which no middleware touches, grows by exactly
one. -/
def CallsOnce (g : Handle) : Prop :=
  ∀ t, ((g t).1).calls = t.calls + 1

/-- The CORS wrapper dispatches to its inner handler exactly once. -/
theorem callsOnce_cors (opt : CORSOptions) (g : Handle) (hg : CallsOnce g) :
    CallsOnce (wrapWithCORS opt g) := by
  intro t
  simp only [wrapWithCORS]
  rw [hg]

/-- The no-caching wrapper dispatches to its inner handler exactly once. -/
theorem callsOnce_noCaching (g : Handle) (hg : CallsOnce g) :
    CallsOnce (wrapWithNoCaching g) := by
  intro t
  simp only [wrapWithNoCaching]
  rw [hg]

/-- The counter wrapper dispatches to its inner handler exactly once. -/
theorem callsOnce_counter (sub nm : String) (g : Handle) (hg : CallsOnce g) :
    CallsOnce (wrapWithCounter sub nm g) :=
  fun t => hg t

/-- The histogram wrapper dispatches to its inner handler exactly once. -/
theorem callsOnce_histogram (sub nm : String) (g : Handle) (hg : CallsOnce g) :
    CallsOnce (wrapWithHistogram sub nm g) :=
  fun t => hg t

/-- The fault-recovery wrapper dispatches to its inner handler exactly once. -/
theorem callsOnce_panicTo500 (nm : String) (g : Handle) (hg : CallsOnce g) :
    CallsOnce (wrapWithPanicTo500 nm g) := by
  intro t
  simp only [wrapWithPanicTo500]
  cases hgt : (g t).2 with
  | none => simp only [hgt]; exact hg t
  | some v =>
    simp only [hgt]
    split_ifs <;> exact hg t

/-- The request-logging wrapper dispatches to its inner handler exactly
once. -/
theorem callsOnce_requestLogging (nm : String) (g : Handle) (hg : CallsOnce g) :
    CallsOnce (wrapWithRequestLogging nm g) := by
  intro t
  simp only [wrapWithRequestLogging]
  cases hgt : (g { t with dbgLogs := t.dbgLogs ++ [nm ++ " enter"] }).2 with
  | none => simp only [hgt]; exact hg _
  | some v => simp only [hgt]; exact hg _

/-- Every single wrapping step dispatches to its inner handler exactly
once. -/
theorem wrap_callsOnce (w : MWrapper) (sub nm : String) (m : Middleware) (g : Handle)
    (hg : CallsOnce g) : CallsOnce ((Wrap w sub nm m g).1) := by
  unfold Wrap
  split_ifs
  · exact callsOnce_cors w.corsOptions g hg
  · exact callsOnce_noCaching g hg
  · exact callsOnce_counter sub nm g hg
  · exact callsOnce_histogram sub nm g hg
  · exact callsOnce_panicTo500 nm g hg
  · exact callsOnce_requestLogging nm g hg
  · exact hg

/-- C4: for every middleware chain, the composed handler invokes the base
handler exactly once per dispatch — never zero times, never more than once —
and for the empty chain the base handler is returned as-is. -/
theorem c4 (w : MWrapper) (sub nm : String) (c : List Middleware) (h : Handle)
    (hh : CallsOnce h) :
    CallsOnce ((WrapChain w sub nm c h).1)
    ∧ (WrapChain w sub nm ([] : List Middleware) h).1 = h := by
  refine ⟨?_, rfl⟩
  induction c with
  | nil => exact hh
  | cons m rest ih => exact wrap_callsOnce w sub nm m _ ih

/-- C4 witness: a two-element chain over a counting base handler increments
the invocation counter by exactly one on a fresh dispatch state. -/
theorem c4_witness :
    ((WrapChain w0 "public" "ping" [Counter, Histogram] hCount).1 initDState).1.calls
      = initDState.calls + 1 :=
  (c4 w0 "public" "ping" [Counter, Histogram] hCount (fun _ => rfl)).1 initDState

/-! ## Fault recovery (claim C2) -/

/-- A handler that always faults with value `pv`, writes status `st0` when
dispatched on an unwritten response (with `st0 = none` meaning it writes no
status before faulting), and logs no error itself. -/
def InnerFaults (pv : String) (st0 : Option Nat) (g : Handle) : Prop :=
  (∀ t, (g t).2 = some pv)
  ∧ (∀ t, t.status = none → ((g t).1).status = st0)
  ∧ (∀ t, ((g t).1).errLogs = t.errLogs)

/-- A handler in which the fault has been recovered: it never escapes with a
fault, on an unwritten response it yields status 500 when the faulting inner
handler wrote none (and the written status otherwise), and it has logged
exactly one error naming the route and the fault value. -/
def RecoveredTo500 (nm pv : String) (st0 : Option Nat) (g : Handle) : Prop :=
  (∀ t, (g t).2 = none)
  ∧ (∀ t, t.status = none → ((g t).1).status = (if st0 = none then some 500 else st0))
  ∧ (∀ t, ((g t).1).errLogs = t.errLogs ++ [(nm, pv)])

/-- The CORS wrapper propagates a fault and preserves status and error-log
behaviour. -/
theorem inner_cors (opt : CORSOptions) (pv : String) (st0 : Option Nat) (g : Handle)
    (hg : InnerFaults pv st0 g) : InnerFaults pv st0 (wrapWithCORS opt g) := by
  obtain ⟨h1, h2, h3⟩ := hg
  exact ⟨fun t => h1 _, fun t ht => h2 _ ht, fun t => h3 _⟩

/-- The no-caching wrapper propagates a fault and preserves status and
error-log behaviour. -/
theorem inner_noCaching (pv : String) (st0 : Option Nat) (g : Handle)
    (hg : InnerFaults pv st0 g) : InnerFaults pv st0 (wrapWithNoCaching g) := by
  obtain ⟨h1, h2, h3⟩ := hg
  exact ⟨fun t => h1 _, fun t ht => h2 _ ht, fun t => h3 _⟩

/-- The counter wrapper records its observation and then propagates the
fault, preserving status and error-log behaviour. -/
theorem inner_counter (sub nm : String) (pv : String) (st0 : Option Nat) (g : Handle)
    (hg : InnerFaults pv st0 g) : InnerFaults pv st0 (wrapWithCounter sub nm g) := by
  obtain ⟨h1, h2, h3⟩ := hg
  exact ⟨fun t => h1 t, fun t ht => h2 t ht, fun t => h3 t⟩

/-- The histogram wrapper records its observation and then propagates the
fault, preserving status and error-log behaviour. -/
theorem inner_histogram (sub nm : String) (pv : String) (st0 : Option Nat) (g : Handle)
    (hg : InnerFaults pv st0 g) : InnerFaults pv st0 (wrapWithHistogram sub nm g) := by
  obtain ⟨h1, h2, h3⟩ := hg
  exact ⟨fun t => h1 t, fun t ht => h2 t ht, fun t => h3 t⟩

/-- The request-logging wrapper propagates a fault and preserves status and
error-log behaviour. -/
theorem inner_requestLogging (nm pv : String) (st0 : Option Nat) (g : Handle)
    (hg : InnerFaults pv st0 g) : InnerFaults pv st0 (wrapWithRequestLogging nm g) := by
  obtain ⟨h1, h2, h3⟩ := hg
  refine ⟨fun t => ?_, fun t ht => ?_, fun t => ?_⟩
  · simp only [wrapWithRequestLogging]
    rw [h1]
  · simp only [wrapWithRequestLogging]
    rw [h1]
    exact h2 _ ht
  · simp only [wrapWithRequestLogging]
    rw [h1]
    exact h3 _

/-- Wrapping an always-faulting handler in the recovery wrapper catches the
fault, logs the one error with route name and fault value, and forces status
500 exactly when no status was written. -/
theorem recovered_of_panicTo500 (nm pv : String) (st0 : Option Nat) (g : Handle)
    (hg : InnerFaults pv st0 g) : RecoveredTo500 nm pv st0 (wrapWithPanicTo500 nm g) := by
  obtain ⟨h1, h2, h3⟩ := hg
  refine ⟨fun t => ?_, fun t ht => ?_, fun t => ?_⟩
  · simp only [wrapWithPanicTo500]
    rw [h1]
  · simp only [wrapWithPanicTo500]
    rw [h1]
    have hst : ((g t).1).status = st0 := h2 t ht
    cases h0 : st0 with
    | none =>
      rw [h0] at hst
      simp [hst]
    | some k =>
      rw [h0] at hst
      simp [hst]
  · simp only [wrapWithPanicTo500]
    rw [h1]
    split_ifs
    · show ((g t).1).errLogs ++ [(nm, pv)] = t.errLogs ++ [(nm, pv)]
      rw [h3]
    · show ((g t).1).errLogs ++ [(nm, pv)] = t.errLogs ++ [(nm, pv)]
      rw [h3]

/-- The CORS wrapper preserves the recovered regime. -/
theorem rec_cors (opt : CORSOptions) (nm pv : String) (st0 : Option Nat) (g : Handle)
    (hg : RecoveredTo500 nm pv st0 g) : RecoveredTo500 nm pv st0 (wrapWithCORS opt g) := by
  obtain ⟨h1, h2, h3⟩ := hg
  exact ⟨fun t => h1 _, fun t ht => h2 _ ht, fun t => h3 _⟩

/-- The no-caching wrapper preserves the recovered regime. -/
theorem rec_noCaching (nm pv : String) (st0 : Option Nat) (g : Handle)
    (hg : RecoveredTo500 nm pv st0 g) : RecoveredTo500 nm pv st0 (wrapWithNoCaching g) := by
  obtain ⟨h1, h2, h3⟩ := hg
  exact ⟨fun t => h1 _, fun t ht => h2 _ ht, fun t => h3 _⟩

/-- The counter wrapper preserves the recovered regime. -/
theorem rec_counter (sub nm pv : String) (st0 : Option Nat) (g : Handle)
    (hg : RecoveredTo500 nm pv st0 g) : RecoveredTo500 nm pv st0 (wrapWithCounter sub nm g) := by
  obtain ⟨h1, h2, h3⟩ := hg
  exact ⟨fun t => h1 t, fun t ht => h2 t ht, fun t => h3 t⟩

/-- The histogram wrapper preserves the recovered regime. -/
theorem rec_histogram (sub nm pv : String) (st0 : Option Nat) (g : Handle)
    (hg : RecoveredTo500 nm pv st0 g) :
    RecoveredTo500 nm pv st0 (wrapWithHistogram sub nm g) := by
  obtain ⟨h1, h2, h3⟩ := hg
  exact ⟨fun t => h1 t, fun t ht => h2 t ht, fun t => h3 t⟩

/-- The request-logging wrapper preserves the recovered regime. -/
theorem rec_requestLogging (nm pv : String) (st0 : Option Nat) (g : Handle)
    (hg : RecoveredTo500 nm pv st0 g) :
    RecoveredTo500 nm pv st0 (wrapWithRequestLogging nm g) := by
  obtain ⟨h1, h2, h3⟩ := hg
  refine ⟨fun t => ?_, fun t ht => ?_, fun t => ?_⟩
  · simp only [wrapWithRequestLogging]
    rw [h1]
  · simp only [wrapWithRequestLogging]
    rw [h1]
    exact h2 _ ht
  · simp only [wrapWithRequestLogging]
    rw [h1]
    exact h3 _

/-- The recovery wrapper is transparent over an already recovered handler. -/
theorem rec_panicTo500 (nm pv : String) (st0 : Option Nat) (g : Handle)
    (hg : RecoveredTo500 nm pv st0 g) :
    RecoveredTo500 nm pv st0 (wrapWithPanicTo500 nm g) := by
  obtain ⟨h1, h2, h3⟩ := hg
  refine ⟨fun t => ?_, fun t ht => ?_, fun t => ?_⟩
  · simp only [wrapWithPanicTo500]
    rw [h1]
    exact h1 t
  · simp only [wrapWithPanicTo500]
    rw [h1]
    exact h2 _ ht
  · simp only [wrapWithPanicTo500]
    rw [h1]
    exact h3 _

/-- Any single wrapping step other than the recovery kind preserves the
faulting regime. -/
theorem wrap_inner (w : MWrapper) (sub nm : String) (pv : String) (st0 : Option Nat)
    (m : Middleware) (g : Handle) (hm : m ≠ PanicTo500) (hg : InnerFaults pv st0 g) :
    InnerFaults pv st0 ((Wrap w sub nm m g).1) := by
  by_cases e1 : m = CORS
  · subst e1
    exact inner_cors w.corsOptions pv st0 g hg
  by_cases e2 : m = NoCaching
  · subst e2
    exact inner_noCaching pv st0 g hg
  by_cases e3 : m = Counter
  · subst e3
    exact inner_counter sub nm pv st0 g hg
  by_cases e4 : m = Histogram
  · subst e4
    exact inner_histogram sub nm pv st0 g hg
  by_cases e6 : m = RequestLogging
  · subst e6
    exact inner_requestLogging nm pv st0 g hg
  have hk : isKnownMiddleware m = false := by
    simp only [isKnownMiddleware, Bool.or_eq_false_iff, beq_eq_false_iff_ne, ne_eq]
    exact ⟨⟨⟨⟨⟨e1, e2⟩, e3⟩, e4⟩, hm⟩, e6⟩
  rw [Wrap_unknown w sub nm m g hk]
  exact hg

/-- Any single wrapping step preserves the recovered regime. -/
theorem wrap_recovered (w : MWrapper) (sub nm : String) (pv : String) (st0 : Option Nat)
    (m : Middleware) (g : Handle) (hg : RecoveredTo500 nm pv st0 g) :
    RecoveredTo500 nm pv st0 ((Wrap w sub nm m g).1) := by
  by_cases e1 : m = CORS
  · subst e1
    exact rec_cors w.corsOptions nm pv st0 g hg
  by_cases e2 : m = NoCaching
  · subst e2
    exact rec_noCaching nm pv st0 g hg
  by_cases e3 : m = Counter
  · subst e3
    exact rec_counter sub nm pv st0 g hg
  by_cases e4 : m = Histogram
  · subst e4
    exact rec_histogram sub nm pv st0 g hg
  by_cases e5 : m = PanicTo500
  · subst e5
    exact rec_panicTo500 nm pv st0 g hg
  by_cases e6 : m = RequestLogging
  · subst e6
    exact rec_requestLogging nm pv st0 g hg
  have hk : isKnownMiddleware m = false := by
    simp only [isKnownMiddleware, Bool.or_eq_false_iff, beq_eq_false_iff_ne, ne_eq]
    exact ⟨⟨⟨⟨⟨e1, e2⟩, e3⟩, e4⟩, e5⟩, e6⟩
  rw [Wrap_unknown w sub nm m g hk]
  exact hg

/-- A chain without the recovery kind composed over an always-faulting base
handler stays in the faulting regime. -/
theorem chain_inner (w : MWrapper) (sub nm : String) (pv : String) (st0 : Option Nat)
    (c : List Middleware) (h : Handle) (hc : PanicTo500 ∉ c) (hh : InnerFaults pv st0 h) :
    InnerFaults pv st0 ((WrapChain w sub nm c h).1) := by
  induction c with
  | nil => exact hh
  | cons m rest ih =>
    have hm : m ≠ PanicTo500 := by
      intro he
      subst he
      exact hc (List.mem_cons_self _ _)
    have hrest : PanicTo500 ∉ rest := fun hr => hc (List.mem_cons_of_mem m hr)
    exact wrap_inner w sub nm pv st0 m _ hm (ih hrest)

/-- A chain containing the recovery kind composed over an always-faulting
base handler yields a recovered handler. -/
theorem chain_recovered (w : MWrapper) (sub nm : String) (pv : String) (st0 : Option Nat)
    (c : List Middleware) (h : Handle) (hc : PanicTo500 ∈ c) (hh : InnerFaults pv st0 h) :
    RecoveredTo500 nm pv st0 ((WrapChain w sub nm c h).1) := by
  induction c with
  | nil => exact absurd hc (List.not_mem_nil _)
  | cons m rest ih =>
    by_cases hr : PanicTo500 ∈ rest
    · exact wrap_recovered w sub nm pv st0 m _ (ih hr)
    · have hm : m = PanicTo500 := by
        rcases List.mem_cons.mp hc with h' | h'
        · exact h'.symm
        · exact absurd h' hr
      subst hm
      exact recovered_of_panicTo500 nm pv st0 _ (chain_inner w sub nm pv st0 rest h hr hh)

/-- C2: if the base handler always faults with value `pv`, writing status
`st0` (none when it writes no status before faulting), and the recovery kind
appears anywhere in the chain — hence outer to the fault site — then dispatch
on a fresh response never lets the fault escape (the process does not
terminate), the fault is logged as exactly one error carrying the route name
and the fault value, and the final status is 500 unless the handler already
wrote a status before faulting, in which case that status stands. -/
theorem c2 (w : MWrapper) (sub nm : String) (c : List Middleware) (h : Handle)
    (s : DState) (pv : String) (st0 : Option Nat)
    (hmem : PanicTo500 ∈ c)
    (hf : ∀ t, (h t).2 = some pv)
    (hst : ∀ t, t.status = none → ((h t).1).status = st0)
    (herr : ∀ t, ((h t).1).errLogs = t.errLogs)
    (hs : s.status = none) :
    (((WrapChain w sub nm c h).1 s).2 = none)
    ∧ (((WrapChain w sub nm c h).1 s).1.status = (if st0 = none then some 500 else st0))
    ∧ (((WrapChain w sub nm c h).1 s).1.errLogs = s.errLogs ++ [(nm, pv)]) := by
  obtain ⟨r1, r2, r3⟩ := chain_recovered w sub nm pv st0 c h hmem ⟨hf, hst, herr⟩
  exact ⟨r1 s, r2 s hs, r3 s⟩

/-- C2 witness: the chain [NoCaching, PanicTo500] over a handler that faults
with "boom" and writes no status yields, on a fresh state, no escaping fault,
status 500 and the one error log entry naming the route and the fault. -/
theorem c2_witness :
    (((WrapChain w0 "internal" "quit" [NoCaching, PanicTo500] hBoom).1 initDState).2 = none)
    ∧ (((WrapChain w0 "internal" "quit" [NoCaching, PanicTo500] hBoom).1 initDState).1.status
        = some 500)
    ∧ (((WrapChain w0 "internal" "quit" [NoCaching, PanicTo500] hBoom).1 initDState).1.errLogs
        = [("quit", "boom")]) := by
  have h := c2 w0 "internal" "quit" [NoCaching, PanicTo500] hBoom initDState "boom" none
    (by simp [NoCaching, PanicTo500]) (fun _ => rfl) (fun _ ht => ht) (fun _ => rfl) rfl
  refine ⟨h.1, by simpa using h.2.1, by simpa [initDState] using h.2.2⟩

end SvcF
